import Mathlib

/-!
Verification of the F.O.C.U.S. continuous-performance attention test engine.

This file gives a shallow embedding, in Lean 4, of the scoring and sequence
generation code of the repository:

* `src/main/trial-sequence.ts` — the randomized trial sequence generator
  (`generateTrialSequence`, `shuffleArray`);
* `src/renderer/utils/clinical-metrics.ts` — the TOVA inverse-normal-CDF
  approximation (`tovaInverseNormalCDF`) and D-prime (`calculateDPrime`);
* the distributions module concatenated into the same source file
  (`clampProbability`, `inverseNormalCDF`, and its own `calculateDPrime`);
* `src/renderer/utils/acs-shared.ts` — `computeAcsValues`, the shared ACS
  scoring pipeline;
* `src/renderer/utils/attention-metrics.ts` — `calculateAttentionMetrics`;
* `src/renderer/utils/acs-calculation.ts` — `calculateSD`;
* the test helper `manualCalculateVariability` from the attention-metrics
  test file.

JavaScript numbers are modelled as real numbers; the `Infinity` guard
branches of the inverse CDF are modelled with `EReal`.  Quantities that the
code manipulates exactly (array lengths, `Math.round`, `Math.floor` on
small integers) are modelled over `ℚ`/`ℤ`/`ℕ`.  Modules imported by the
scoring code whose sources are not part of the repository snapshot
(`processTestEvents`, `getNormativeStats`, `TRIAL_CONSTANTS`) are treated
as explicit parameters, or are modelled from the specification where the
specification fixes their value; such definitions are marked in their doc
comments.
-/

/-! ### Trial sequence generator (src/main/trial-sequence.ts) -/

/-- Stimulus categories, source type `StimulusType = 'target' | 'non-target'`. -/
inductive StimulusType where
  | target
  | nonTarget
deriving DecidableEq, Repr

/-- JavaScript runtime error raised by `Array(len)` when `len` is not a
non-negative integer. -/
inductive JsError where
  | rangeError
deriving DecidableEq, Repr

/-- JavaScript `Math.round`: round half away from zero; on the non-negative
inputs used here this is `⌊q + 1/2⌋`. -/
def jsRound (q : ℚ) : ℤ := ⌊q + 1 / 2⌋

/-- JavaScript `Array(len).fill(x)`: a list of `len` copies of `x` when `len`
is a non-negative integer, a `RangeError` otherwise. -/
def jsArrayFill (len : ℚ) (x : α) : Except JsError (List α) :=
  if (⌊len⌋ : ℚ) = len ∧ 0 ≤ len then
    Except.ok (List.replicate (⌊len⌋).toNat x)
  else
    Except.error JsError.rangeError

/-- One step of the in-place Fisher-Yates loop:
`[array[i], array[j]] = [array[j], array[i]]`.  Out-of-range indices leave
the list unchanged (they do not occur in the loop). -/
def listSwap (l : List α) (i j : ℕ) : List α :=
  match l.get? i, l.get? j with
  | some x, some y => (l.set i y).set j x
  | _, _ => l

/-- `shuffleArray` from src/main/trial-sequence.ts: the loop runs `i` from
`array.length - 1` down to `1` and swaps index `i` with
`j = Math.floor(Math.random() * (i + 1))`.  The random source is modelled
by `rand : ℕ → ℕ`; at step `i` the draw `Math.floor(r * (i + 1))` with
`r ∈ [0, 1)` ranges over exactly `{0, …, i}`, which `rand i % (i + 1)`
reproduces, so every execution of the source corresponds to some `rand`. -/
def shuffleArray (rand : ℕ → ℕ) (array : List α) : List α :=
  (((List.range array.length).drop 1).reverse).foldl
    (fun l i => listSwap l i (rand i % (i + 1))) array

/-- `generateTrialSequence` from src/main/trial-sequence.ts, with one random
source per `shuffleArray` call site.  The source performs no validation of
`totalTrials`: `halfTrials = totalTrials / 2` is ordinary division, and the
half arrays are built with `Array(count)`, which throws a `RangeError` when
the count is fractional. -/
def generateTrialSequence (rand1 rand2 : ℕ → ℕ) (totalTrials : ℕ) :
    Except JsError (List StimulusType) := do
  let halfTrials : ℚ := totalTrials / 2
  let firstHalfTargets : ℤ := jsRound (halfTrials * 0.225)
  let secondHalfTargets : ℤ := jsRound (halfTrials * 0.775)
  let ft ← jsArrayFill (firstHalfTargets : ℚ) StimulusType.target
  let fnt ← jsArrayFill (halfTrials - firstHalfTargets) StimulusType.nonTarget
  let st ← jsArrayFill (secondHalfTargets : ℚ) StimulusType.target
  let snt ← jsArrayFill (halfTrials - secondHalfTargets) StimulusType.nonTarget
  let firstHalf := shuffleArray rand1 (ft ++ fnt)
  let secondHalf := shuffleArray rand2 (st ++ snt)
  return firstHalf ++ secondHalf

/-! ### Inverse normal CDF and D-prime (src/renderer/utils/clinical-metrics.ts) -/

namespace ClinicalMetrics

/-- `tovaInverseNormalCDF` from clinical-metrics.ts.  JavaScript numbers are
modelled as `EReal` so that the `-Infinity` / `Infinity` boundary returns are
represented faithfully; the `debug` logging parameter is omitted. -/
noncomputable def tovaInverseNormalCDF (p : ℝ) : EReal :=
  if p ≤ 0 then ⊥
  else if 1 ≤ p then ⊤
  else if p = 0.5 then ((0 : ℝ) : EReal)
  else
    let pCalc : ℝ := if 0.5 < p then 1 - p else p
    let T : ℝ := Real.sqrt (-2 * Real.log pCalc)
    let numerator : ℝ := 2.515517 + 0.802853 * T + 0.010328 * T * T
    let denominator : ℝ := 1 + 1.432788 * T + 0.189269 * T * T + 0.001308 * T * T * T
    let z : ℝ := T - numerator / denominator
    ((if 0.5 < p then -z else z : ℝ) : EReal)

/-- The finite real value of `tovaInverseNormalCDF` on `0 < p < 1`, where the
infinity guards of the source cannot fire (see `tovaInverseNormalCDF_coe`).
The body is the same as the source past its two boundary guards. -/
noncomputable def invNormCore (p : ℝ) : ℝ :=
  if p = 0.5 then 0
  else
    let pCalc : ℝ := if 0.5 < p then 1 - p else p
    let T : ℝ := Real.sqrt (-2 * Real.log pCalc)
    let numerator : ℝ := 2.515517 + 0.802853 * T + 0.010328 * T * T
    let denominator : ℝ := 1 + 1.432788 * T + 0.189269 * T * T + 0.001308 * T * T * T
    let z : ℝ := T - numerator / denominator
    if 0.5 < p then -z else z

/-- The inline boundary adjustment of `calculateDPrime` in
clinical-metrics.ts: `rate <= 0 ? 0.00001 : rate >= 1 ? 0.99999 : rate`. -/
noncomputable def boundaryAdjust (p : ℝ) : ℝ :=
  if p ≤ 0 then 0.00001 else if 1 ≤ p then 0.99999 else p

/-- `calculateDPrime` from clinical-metrics.ts:
`D-prime = zFA - zHit` with boundary-adjusted rates. -/
noncomputable def calculateDPrime (hitRate falseAlarmRate : ℝ) : EReal :=
  let adjustedHitRate : ℝ := boundaryAdjust hitRate
  let adjustedFARate : ℝ := boundaryAdjust falseAlarmRate
  let zHit := tovaInverseNormalCDF adjustedHitRate
  let zFA := tovaInverseNormalCDF adjustedFARate
  zFA - zHit

/-- Real-valued form of `calculateDPrime`: the adjusted rates always lie in
`(0, 1)`, so both inverse-CDF calls take finite values
(`calculateDPrime_coe` proves agreement with `calculateDPrime`). -/
noncomputable def calculateDPrimeReal (hitRate falseAlarmRate : ℝ) : ℝ :=
  invNormCore (boundaryAdjust falseAlarmRate) - invNormCore (boundaryAdjust hitRate)

end ClinicalMetrics

/-! ### Probability distributions module (second part of the same file) -/

namespace Distributions

/-- `clampProbability` from the distributions module:
`Math.max(0.00001, Math.min(0.99999, p))`. -/
noncomputable def clampProbability (p : ℝ) : ℝ :=
  max 0.00001 (min 0.99999 p)

/-- `inverseNormalCDF` from the distributions module; the body is textually
the same Abramowitz-Stegun approximation as `tovaInverseNormalCDF`. -/
noncomputable def inverseNormalCDF (p : ℝ) : EReal :=
  if p ≤ 0 then ⊥
  else if 1 ≤ p then ⊤
  else if p = 0.5 then ((0 : ℝ) : EReal)
  else
    let pCalc : ℝ := if 0.5 < p then 1 - p else p
    let T : ℝ := Real.sqrt (-2 * Real.log pCalc)
    let numerator : ℝ := 2.515517 + 0.802853 * T + 0.010328 * T * T
    let denominator : ℝ := 1 + 1.432788 * T + 0.189269 * T * T + 0.001308 * T * T * T
    let z : ℝ := T - numerator / denominator
    ((if 0.5 < p then -z else z : ℝ) : EReal)

/-- `calculateDPrime` from the distributions module: the same formula as the
clinical-metrics version but with `clampProbability` boundary handling. -/
noncomputable def calculateDPrime (hitRate falseAlarmRate : ℝ) : EReal :=
  let adjustedHitRate : ℝ := clampProbability hitRate
  let adjustedFARate : ℝ := clampProbability falseAlarmRate
  let zHit := inverseNormalCDF adjustedHitRate
  let zFA := inverseNormalCDF adjustedFARate
  zFA - zHit

end Distributions

/-! ### Trial data model (src/renderer/types) -/

/-- `TrialOutcome` from types/trial.ts. -/
inductive TrialOutcome where
  | hit
  | omission
  | commission
  | correctRejection
deriving DecidableEq, Repr

/-- `TrialResult` from types/trial.ts.  `responseTimeMs` is `number | null`
in the source, hence an `Option`. -/
structure TrialResult where
  trialIndex : ℕ
  stimulusType : StimulusType
  outcome : TrialOutcome
  responseTimeMs : Option ℝ
  isAnticipatory : Bool
  isMultipleResponse : Bool
  followsCommission : Bool
  postCommissionResponseTimeMs : Option ℝ := none

/-- Event kinds of `TestEvent` from types/electronAPI.ts. -/
inductive TestEventType where
  | stimulusOnset
  | stimulusOffset
  | response
  | bufferStart
deriving DecidableEq, Repr

/-- `TestEvent` from types/electronAPI.ts; `timestampNs` is a string holding
a nanosecond integer in the source. -/
structure TestEvent where
  trialIndex : ℕ
  stimulusType : StimulusType
  timestampNs : ℤ
  eventType : TestEventType
  responseCorrect : Option Bool := none

/-- The only field of `TestConfig` that the scoring pipeline constructs and
uses (`{ totalTrials: … } as TestConfig`). -/
structure TestConfig where
  totalTrials : ℕ

/-- `NormativeStats` as used by the scoring code: normative mean/SD triples.
The display-only `ageRange`/`gender` labels are omitted. -/
structure NormativeStats where
  responseTimeMean : ℝ
  responseTimeSD : ℝ
  dPrimeMean : ℝ
  dPrimeSD : ℝ
  variabilityMean : ℝ
  variabilitySD : ℝ

/-- Subject gender, `'Male' | 'Female'` in the source. -/
inductive Gender where
  | male
  | female
deriving DecidableEq, Repr

/-- `SubjectInfo` from types/trial.ts. -/
structure SubjectInfo where
  age : ℝ
  gender : Gender

/-- The three constants of `TRIAL_CONSTANTS` that the scoring code reads;
the module trial-constants.ts itself is not part of the snapshot, so the
values are kept abstract (the spec fixes only `ACS_CONSTANT`, see
`specAcsConstant`). -/
structure TrialConstants where
  ACS_CONSTANT : ℝ
  ACS_NORMAL_THRESHOLD : ℝ
  ACS_BORDERLINE_THRESHOLD : ℝ

/-- Modelled from the spec: the fixed additive ACS constant, 1.80; the
source reads it as `TRIAL_CONSTANTS.ACS_CONSTANT` from the missing
trial-constants.ts module. -/
noncomputable def specAcsConstant : ℝ := 1.80

/-- Modelled from the spec: `calculateMean` from the missing basic-stats.ts
module - the arithmetic mean of a list (callers guard against empty lists). -/
noncomputable def calculateMean (values : List ℝ) : ℝ :=
  values.sum / values.length

/-- Modelled from the spec: `calculateStdDevWithMean` from the missing
basic-stats.ts module; the spec describes variability as the sample standard
deviation (divisor `n - 1`) about the given mean.  (The repository test
helper `manualCalculateVariability`, embedded below, divides by `n`
instead; no claim settled here depends on this modelled divisor.) -/
noncomputable def calculateStdDevWithMean (values : List ℝ) (mean : ℝ) : ℝ :=
  Real.sqrt ((values.map (fun v => (v - mean) ^ 2)).sum / ((values.length : ℝ) - 1))

/-- Modelled from the spec: a z-score is computed only when the normative
standard deviation is finite and strictly positive, and is null otherwise
(every real of the model is finite). -/
noncomputable def zScoreChecked (value mean sd : ℝ) : Option ℝ :=
  if 0 < sd then some ((value - mean) / sd) else none

/-! ### Shared ACS pipeline (src/renderer/utils/acs-shared.ts) -/

/-- `AcsIntermediateResult` from acs-shared.ts. -/
structure AcsIntermediateResult where
  trials : List TrialResult
  firstHalfTrials : List TrialResult
  secondHalfTrials : List TrialResult
  firstHalfMeanRT : ℝ
  dPrime : ℝ
  variability : ℝ
  normativeStats : Option NormativeStats
  rtZ : ℝ
  dPrimeZ : ℝ
  variabilityZ : ℝ
  acs : ℝ

/-- `computeAcsValues` from acs-shared.ts.  The imported collaborators whose
modules are not part of the snapshot — `processTestEvents` (trial
reconstruction) and `getNormativeStats` (the normative table) — and the
constants record are taken as parameters.  `calculateDPrimeReal` is the
real-valued form of the imported `calculateDPrime`
(`ClinicalMetrics.calculateDPrime_coe` proves they agree). -/
noncomputable def computeAcsValues
    (processTestEvents : List TestEvent → TestConfig → List TrialResult)
    (getNormativeStats : ℝ → Gender → Option NormativeStats)
    (TRIAL_CONSTANTS : TrialConstants)
    (events : List TestEvent) (subjectInfo : SubjectInfo) : AcsIntermediateResult :=
  let trials := processTestEvents events
    { totalTrials :=
        (events.filter (fun e => e.eventType == TestEventType.stimulusOnset)).length }
  let normativeStats := getNormativeStats subjectInfo.age subjectInfo.gender
  let midpoint := trials.length / 2
  let firstHalfTrials := trials.take midpoint
  let secondHalfTrials := trials.drop midpoint
  let firstHalfValidHits := firstHalfTrials.filter
    (fun t => t.outcome == TrialOutcome.hit && t.responseTimeMs.isSome && !t.isAnticipatory)
  let firstHalfResponseTimes := firstHalfValidHits.map (fun t => t.responseTimeMs.getD 0)
  let firstHalfMeanRT :=
    if 0 < firstHalfResponseTimes.length then calculateMean firstHalfResponseTimes else 0
  let secondHalfHits := (secondHalfTrials.filter (fun t => t.outcome == TrialOutcome.hit)).length
  let secondHalfOmissions :=
    (secondHalfTrials.filter (fun t => t.outcome == TrialOutcome.omission)).length
  let secondHalfCommissions :=
    (secondHalfTrials.filter (fun t => t.outcome == TrialOutcome.commission)).length
  let secondHalfCorrectRejections :=
    (secondHalfTrials.filter (fun t => t.outcome == TrialOutcome.correctRejection)).length
  let secondHalfTargets := secondHalfHits + secondHalfOmissions
  let secondHalfNonTargets := secondHalfCommissions + secondHalfCorrectRejections
  let hitRate : ℝ :=
    if 0 < secondHalfTargets then (secondHalfHits : ℝ) / (secondHalfTargets : ℝ) else 0.5
  let falseAlarmRate : ℝ :=
    if 0 < secondHalfNonTargets then (secondHalfCommissions : ℝ) / (secondHalfNonTargets : ℝ)
    else 0.5
  let dPrime := ClinicalMetrics.calculateDPrimeReal hitRate falseAlarmRate
  let validHitResponseTimes := (trials.filter
    (fun t => t.outcome == TrialOutcome.hit && t.responseTimeMs.isSome && !t.isAnticipatory)).map
      (fun t => t.responseTimeMs.getD 0)
  let overallMeanRT :=
    if 0 < validHitResponseTimes.length then calculateMean validHitResponseTimes
    else firstHalfMeanRT
  let variability :=
    if 0 < validHitResponseTimes.length then
      calculateStdDevWithMean validHitResponseTimes overallMeanRT
    else 0
  let rtZ := match normativeStats with
    | some ns => (firstHalfMeanRT - ns.responseTimeMean) / ns.responseTimeSD
    | none => 0
  let dPrimeZ := match normativeStats with
    | some ns => (dPrime - ns.dPrimeMean) / ns.dPrimeSD
    | none => 0
  let variabilityZ := match normativeStats with
    | some ns => (variability - ns.variabilityMean) / ns.variabilitySD
    | none => 0
  let acs := rtZ + dPrimeZ + variabilityZ + TRIAL_CONSTANTS.ACS_CONSTANT
  { trials := trials
    firstHalfTrials := firstHalfTrials
    secondHalfTrials := secondHalfTrials
    firstHalfMeanRT := firstHalfMeanRT
    dPrime := dPrime
    variability := variability
    normativeStats := normativeStats
    rtZ := rtZ
    dPrimeZ := dPrimeZ
    variabilityZ := variabilityZ
    acs := acs }

/-! ### Attention metrics (src/renderer/utils/attention-metrics.ts) -/

/-- The interpretation values of `acsInterpretation`. -/
inductive AcsInterpretation where
  | normal
  | borderline
  | notWithinNormalLimits
  | unavailable
deriving DecidableEq, Repr

/-- `AttentionMetrics` from types/trial.ts, restricted to the fields the
claims concern; the string-valued validity record and the constant
`scalingFactor` are omitted.  The three z-score subfields are flattened. -/
structure AttentionMetrics where
  hits : ℕ
  commissions : ℕ
  omissions : ℕ
  correctRejections : ℕ
  anticipatoryResponses : ℕ
  multipleResponses : ℕ
  acs : ℝ
  acsInterpretation : AcsInterpretation
  omissionPercent : ℝ
  commissionPercent : ℝ
  dPrime : ℝ
  variability : ℝ
  meanResponseTimeMs : ℝ
  trialCount : ℕ
  zScoresResponseTime : ℝ
  zScoresDPrime : ℝ
  zScoresVariability : ℝ

/-- `calculateAttentionMetrics` from attention-metrics.ts.  The source
guards the interpretation with `if (acs === null)`, but `acs` is the
`number`-typed field of `AcsIntermediateResult`, so that branch is
statically dead: the `unavailable` interpretation is never produced here,
and the embedding reflects that. -/
noncomputable def calculateAttentionMetrics
    (processTestEvents : List TestEvent → TestConfig → List TrialResult)
    (getNormativeStats : ℝ → Gender → Option NormativeStats)
    (TRIAL_CONSTANTS : TrialConstants)
    (events : List TestEvent) (subjectInfo : SubjectInfo) : AttentionMetrics :=
  let r := computeAcsValues processTestEvents getNormativeStats TRIAL_CONSTANTS events
    subjectInfo
  let hits := (r.trials.filter (fun t => t.outcome == TrialOutcome.hit)).length
  let omissions := (r.trials.filter (fun t => t.outcome == TrialOutcome.omission)).length
  let commissions := (r.trials.filter (fun t => t.outcome == TrialOutcome.commission)).length
  let correctRejections :=
    (r.trials.filter (fun t => t.outcome == TrialOutcome.correctRejection)).length
  let anticipatoryResponses := (r.trials.filter (fun t => t.isAnticipatory)).length
  let multipleResponses := (r.trials.filter (fun t => t.isMultipleResponse)).length
  let totalTargets := hits + omissions
  let totalNonTargets := commissions + correctRejections
  let omissionPercent : ℝ :=
    if 0 < totalTargets then (omissions : ℝ) / (totalTargets : ℝ) * 100 else 0
  let commissionPercent : ℝ :=
    if 0 < totalNonTargets then (commissions : ℝ) / (totalNonTargets : ℝ) * 100 else 0
  let acsInterpretation :=
    if r.acs ≥ TRIAL_CONSTANTS.ACS_NORMAL_THRESHOLD then AcsInterpretation.normal
    else if r.acs ≥ TRIAL_CONSTANTS.ACS_BORDERLINE_THRESHOLD then AcsInterpretation.borderline
    else AcsInterpretation.notWithinNormalLimits
  { hits := hits
    commissions := commissions
    omissions := omissions
    correctRejections := correctRejections
    anticipatoryResponses := anticipatoryResponses
    multipleResponses := multipleResponses
    acs := r.acs
    acsInterpretation := acsInterpretation
    omissionPercent := omissionPercent
    commissionPercent := commissionPercent
    dPrime := r.dPrime
    variability := r.variability
    meanResponseTimeMs := r.firstHalfMeanRT
    trialCount := r.trials.length
    zScoresResponseTime := r.rtZ
    zScoresDPrime := r.dPrimeZ
    zScoresVariability := r.variabilityZ }

/-! ### Standard deviations (acs-calculation.ts and the test helper) -/

/-- `calculateSD` from acs-calculation.ts: sample standard deviation
(divisor `length - 1`), 0 when there are fewer than two values. -/
noncomputable def calculateSD (values : List ℝ) : ℝ :=
  if values.length < 2 then 0
  else
    let mean := values.sum / values.length
    let squaredDiffs := values.map (fun v => (v - mean) ^ 2)
    Real.sqrt (squaredDiffs.sum / ((values.length : ℝ) - 1))

/-- `manualCalculateVariability` from the attention-metrics test file:
population standard deviation (divisor `length`), 0 for an empty list. -/
noncomputable def manualCalculateVariability (responseTimes : List ℝ) : ℝ :=
  if responseTimes.length = 0 then 0
  else
    let mean := responseTimes.sum / responseTimes.length
    let squaredDiffs := responseTimes.map (fun rt => (rt - mean) ^ 2)
    Real.sqrt (squaredDiffs.sum / (responseTimes.length : ℝ))

/-! ### The swap step is a permutation -/

lemma list_cons_middle_swap (x y : α) (B C : List α) :
    List.Perm (x :: (B ++ y :: C)) (y :: (B ++ x :: C)) := by
  refine (List.Perm.cons x List.perm_middle).trans ?_
  refine (List.Perm.swap y x (B ++ C)).trans ?_
  exact List.Perm.cons y List.perm_middle.symm

lemma listSwap_perm_of_lt (l : List α) (i j : ℕ) (hij : i < j) (hj : j < l.length) :
    List.Perm ((l.set i l[j]).set j l[i]) l := by
  have hi : i < l.length := lt_trans hij hj
  have hA : (l.take i).length = i := List.length_take_of_le (le_of_lt hi)
  have hset1 : l.set i l[j] = l.take i ++ l[j] :: l.drop (i + 1) :=
    List.set_eq_take_cons_drop _ hi
  have hj' : j - (i + 1) < (l.drop (i + 1)).length := by
    rw [List.length_drop]; omega
  have hgetd : (l.drop (i + 1))[j - (i + 1)] = l[j] := by
    rw [List.getElem_drop]
    congr 1
    omega
  have hset2 :
      (l.take i ++ l[j] :: l.drop (i + 1)).set j l[i] =
        l.take i ++ l[j] :: (l.drop (i + 1)).set (j - (i + 1)) l[i] := by
    rw [List.set_append, hA]
    rw [if_neg (by omega : ¬ j < i)]
    have hji : j - i = (j - (i + 1)) + 1 := by omega
    rw [hji, List.set_cons_succ]
  have hset3 :
      (l.drop (i + 1)).set (j - (i + 1)) l[i] =
        (l.drop (i + 1)).take (j - (i + 1)) ++ l[i] :: (l.drop (i + 1)).drop (j - (i + 1) + 1) :=
    List.set_eq_take_cons_drop _ hj'
  have hlself : l = l.take i ++ l[i] :: l.drop (i + 1) := by
    conv_lhs => rw [← List.take_append_drop i l, List.drop_eq_getElem_cons hi]
  have hdself : l.drop (i + 1) =
      (l.drop (i + 1)).take (j - (i + 1)) ++ l[j] :: (l.drop (i + 1)).drop (j - (i + 1) + 1) := by
    conv_lhs =>
      rw [← List.take_append_drop (j - (i + 1)) (l.drop (i + 1)),
        List.drop_eq_getElem_cons hj']
    rw [hgetd]
  rw [hset1, hset2, hset3]
  conv_rhs => rw [hlself, hdself]
  exact List.Perm.append_left _ (list_cons_middle_swap _ _ _ _)

lemma list_set_self_of_lt (l : List α) (i : ℕ) (h : i < l.length) :
    l.set i l[i] = l := by
  apply List.ext_getElem?
  intro n
  rcases eq_or_ne i n with rfl | hn
  · simp [List.getElem?_set_self', List.getElem?_eq_getElem h]
  · exact List.getElem?_set_ne hn

lemma listSwap_perm (l : List α) (i j : ℕ) : List.Perm (listSwap l i j) l := by
  unfold listSwap
  rcases hx : l.get? i with _ | x
  · exact List.Perm.refl l
  rcases hy : l.get? j with _ | y
  · exact List.Perm.refl l
  simp only
  have hi : i < l.length := (List.get?_eq_some.mp hx).1
  have hj : j < l.length := (List.get?_eq_some.mp hy).1
  have hxv : l[i] = x := by
    have h1 := List.get?_eq_get hi
    rw [hx] at h1
    exact (Option.some_inj.mp h1).symm
  have hyv : l[j] = y := by
    have h1 := List.get?_eq_get hj
    rw [hy] at h1
    exact (Option.some_inj.mp h1).symm
  rcases lt_trichotomy i j with hij | hij | hij
  · rw [← hxv, ← hyv]
    exact listSwap_perm_of_lt l i j hij hj
  · subst hij
    have hxy : x = y := by rw [← hxv, ← hyv]
    subst hxy
    rw [List.set_set, ← hxv, list_set_self_of_lt l i hi]
  · rw [List.set_comm _ _ _ (Nat.ne_of_gt hij), ← hxv, ← hyv]
    exact listSwap_perm_of_lt l j i hij hi

lemma shuffleArray_perm (rand : ℕ → ℕ) (l : List α) :
    List.Perm (shuffleArray rand l) l := by
  unfold shuffleArray
  generalize (((List.range l.length).drop 1).reverse) = idxs
  induction idxs generalizing l with
  | nil => exact List.Perm.refl l
  | cons i is ih =>
      simp only [List.foldl_cons]
      exact (ih (listSwap l i (rand i % (i + 1)))).trans (listSwap_perm l i _)

lemma shuffleArray_length (rand : ℕ → ℕ) (l : List α) :
    (shuffleArray rand l).length = l.length :=
  (shuffleArray_perm rand l).length_eq

/-! ### Evaluation lemmas for the generator -/

lemma jsArrayFill_intCast (m : ℤ) (hm : 0 ≤ m) (x : α) :
    jsArrayFill (m : ℚ) x = Except.ok (List.replicate m.toNat x) := by
  unfold jsArrayFill
  rw [if_pos]
  · rw [Int.floor_intCast]
  · exact ⟨by rw [Int.floor_intCast], by exact_mod_cast hm⟩

lemma jsArrayFill_half_add (k : ℤ) (x : α) :
    jsArrayFill ((k : ℚ) + 1 / 2) x = Except.error JsError.rangeError := by
  unfold jsArrayFill
  rw [if_neg]
  rintro ⟨hfl, -⟩
  rw [Int.floor_int_add, show ⌊(1 / 2 : ℚ)⌋ = 0 by norm_num [Int.floor_eq_zero_iff]] at hfl
  push_cast at hfl
  linarith

lemma jsRound_nonneg (q : ℚ) (hq : 0 ≤ q) : 0 ≤ jsRound q :=
  Int.le_floor.mpr (by push_cast; linarith)

lemma jsRound_le (q : ℚ) (z : ℤ) (h : q + 1 / 2 < z + 1) : jsRound q ≤ z := by
  have := Int.floor_lt.mpr (show q + 1 / 2 < ((z + 1 : ℤ) : ℚ) by push_cast; linarith)
  unfold jsRound
  omega

lemma generateTrialSequence_even_eq (rand1 rand2 : ℕ → ℕ) (h : ℕ) :
    generateTrialSequence rand1 rand2 (2 * h) =
      Except.ok
        (shuffleArray rand1
            (List.replicate (jsRound ((h : ℚ) * 0.225)).toNat StimulusType.target ++
              List.replicate ((h : ℤ) - jsRound ((h : ℚ) * 0.225)).toNat StimulusType.nonTarget) ++
          shuffleArray rand2
            (List.replicate (jsRound ((h : ℚ) * 0.775)).toNat StimulusType.target ++
              List.replicate ((h : ℤ) - jsRound ((h : ℚ) * 0.775)).toNat StimulusType.nonTarget)) := by
  have hhalf : ((2 * h : ℕ) : ℚ) / 2 = (h : ℚ) := by push_cast; ring
  have ha0 : 0 ≤ jsRound ((h : ℚ) * 0.225) := jsRound_nonneg _ (by positivity)
  have hb0 : 0 ≤ jsRound ((h : ℚ) * 0.775) := jsRound_nonneg _ (by positivity)
  have hsub1 : (h : ℚ) - (jsRound ((h : ℚ) * 0.225) : ℚ) =
      (((h : ℤ) - jsRound ((h : ℚ) * 0.225) : ℤ) : ℚ) := by push_cast; ring
  have hsub2 : (h : ℚ) - (jsRound ((h : ℚ) * 0.775) : ℚ) =
      (((h : ℤ) - jsRound ((h : ℚ) * 0.775) : ℤ) : ℚ) := by push_cast; ring
  have hah : jsRound ((h : ℚ) * 0.225) ≤ (h : ℤ) := by
    apply jsRound_le
    push_cast
    nlinarith [show (0 : ℚ) ≤ (h : ℚ) by positivity]
  have hbh : jsRound ((h : ℚ) * 0.775) ≤ (h : ℤ) := by
    apply jsRound_le
    push_cast
    nlinarith [show (0 : ℚ) ≤ (h : ℚ) by positivity]
  unfold generateTrialSequence
  simp only [hhalf]
  rw [jsArrayFill_intCast _ ha0]
  rw [hsub1, jsArrayFill_intCast _ (by omega)]
  rw [jsArrayFill_intCast _ hb0]
  rw [hsub2, jsArrayFill_intCast _ (by omega)]
  rfl

lemma generateTrialSequence_odd_eq (rand1 rand2 : ℕ → ℕ) (n : ℕ) (hodd : Odd n) :
    generateTrialSequence rand1 rand2 n = Except.error JsError.rangeError := by
  obtain ⟨k, hk⟩ := hodd
  subst hk
  have hhalf : ((2 * k + 1 : ℕ) : ℚ) / 2 = (k : ℚ) + 1 / 2 := by push_cast; ring
  have ha0 : 0 ≤ jsRound (((k : ℚ) + 1 / 2) * 0.225) := jsRound_nonneg _ (by positivity)
  have hsub : (k : ℚ) + 1 / 2 - (jsRound (((k : ℚ) + 1 / 2) * 0.225) : ℚ) =
      (((k : ℤ) - jsRound (((k : ℚ) + 1 / 2) * 0.225) : ℤ) : ℚ) + 1 / 2 := by
    push_cast; ring
  unfold generateTrialSequence
  simp only [hhalf]
  rw [jsArrayFill_intCast _ ha0]
  rw [hsub, jsArrayFill_half_add]
  rfl

/-! ### Counting lemmas for the two halves -/

lemma jsRound_225_nonneg (h : ℕ) : 0 ≤ jsRound ((h : ℚ) * 0.225) :=
  jsRound_nonneg _ (by positivity)

lemma jsRound_775_nonneg (h : ℕ) : 0 ≤ jsRound ((h : ℚ) * 0.775) :=
  jsRound_nonneg _ (by positivity)

lemma jsRound_225_le (h : ℕ) : jsRound ((h : ℚ) * 0.225) ≤ (h : ℤ) := by
  apply jsRound_le
  push_cast
  nlinarith [show (0 : ℚ) ≤ (h : ℚ) by positivity]

lemma jsRound_775_le (h : ℕ) : jsRound ((h : ℚ) * 0.775) ≤ (h : ℤ) := by
  apply jsRound_le
  push_cast
  nlinarith [show (0 : ℚ) ≤ (h : ℚ) by positivity]

lemma take_append_exact (s1 s2 : List α) (h : ℕ) (hlen : s1.length = h) :
    (s1 ++ s2).take h = s1 := by
  subst hlen
  exact List.take_left s1 s2

lemma drop_append_exact (s1 s2 : List α) (h : ℕ) (hlen : s1.length = h) :
    (s1 ++ s2).drop h = s2 := by
  subst hlen
  exact List.drop_left s1 s2

lemma count_target_half (a : ℤ) (h : ℕ) :
    (List.replicate a.toNat StimulusType.target ++
        List.replicate ((h : ℤ) - a).toNat StimulusType.nonTarget).count
      StimulusType.target = a.toNat := by
  simp [List.count_replicate]

lemma count_nonTarget_half (a : ℤ) (h : ℕ) (ha0 : 0 ≤ a) (hah : a ≤ (h : ℤ)) :
    (List.replicate a.toNat StimulusType.target ++
        List.replicate ((h : ℤ) - a).toNat StimulusType.nonTarget).count
      StimulusType.nonTarget = h - a.toNat := by
  have : ((h : ℤ) - a).toNat = h - a.toNat := by omega
  simp [List.count_replicate, this]

lemma length_half (a : ℤ) (h : ℕ) (ha0 : 0 ≤ a) (hah : a ≤ (h : ℤ)) :
    (List.replicate a.toNat StimulusType.target ++
        List.replicate ((h : ℤ) - a).toNat StimulusType.nonTarget).length = h := by
  simp only [List.length_append, List.length_replicate]
  omega

/-- C3: for all even `n ≥ 2`, `generate(n)` returns a list of length `n`
whose first half contains exactly `round(n/2 × 0.225)` targets and whose
second half contains exactly `round(n/2 × 0.775)` targets, the remainder of
each half being non-targets; each half of the returned sequence is a
permutation of the corresponding target/non-target multiset, for every
random source (the Fisher-Yates shuffle neither invents nor loses
elements). -/
theorem C3_generateTrialSequence_counts (rand1 rand2 : ℕ → ℕ) (n : ℕ)
    (heven : Even n) (h2 : 2 ≤ n) :
    ∃ l : List StimulusType,
      generateTrialSequence rand1 rand2 n = Except.ok l ∧
      l.length = n ∧
      (l.take (n / 2)).count StimulusType.target = (jsRound ((n : ℚ) / 2 * 0.225)).toNat ∧
      (l.drop (n / 2)).count StimulusType.target = (jsRound ((n : ℚ) / 2 * 0.775)).toNat ∧
      (l.take (n / 2)).count StimulusType.nonTarget
        = n / 2 - (jsRound ((n : ℚ) / 2 * 0.225)).toNat ∧
      (l.drop (n / 2)).count StimulusType.nonTarget
        = n / 2 - (jsRound ((n : ℚ) / 2 * 0.775)).toNat ∧
      List.Perm (l.take (n / 2))
        (List.replicate ((jsRound ((n : ℚ) / 2 * 0.225)).toNat) StimulusType.target ++
          List.replicate (n / 2 - (jsRound ((n : ℚ) / 2 * 0.225)).toNat) StimulusType.nonTarget) ∧
      List.Perm (l.drop (n / 2))
        (List.replicate ((jsRound ((n : ℚ) / 2 * 0.775)).toNat) StimulusType.target ++
          List.replicate (n / 2 - (jsRound ((n : ℚ) / 2 * 0.775)).toNat) StimulusType.nonTarget) ∧
      List.Perm l
        ((List.replicate ((jsRound ((n : ℚ) / 2 * 0.225)).toNat) StimulusType.target ++
            List.replicate (n / 2 - (jsRound ((n : ℚ) / 2 * 0.225)).toNat)
              StimulusType.nonTarget) ++
          (List.replicate ((jsRound ((n : ℚ) / 2 * 0.775)).toNat) StimulusType.target ++
            List.replicate (n / 2 - (jsRound ((n : ℚ) / 2 * 0.775)).toNat)
              StimulusType.nonTarget)) := by
  obtain ⟨h, rfl⟩ := heven
  have h2h : h + h = 2 * h := (two_mul h).symm
  rw [h2h]
  have hhalf : ((2 * h : ℕ) : ℚ) / 2 = (h : ℚ) := by push_cast; ring
  have hdiv : 2 * h / 2 = h := Nat.mul_div_cancel_left h (by norm_num)
  simp only [hhalf, hdiv]
  have ha0 := jsRound_225_nonneg h
  have hah := jsRound_225_le h
  have hb0 := jsRound_775_nonneg h
  have hbh := jsRound_775_le h
  set a := jsRound ((h : ℚ) * 0.225) with hadef
  set b := jsRound ((h : ℚ) * 0.775) with hbdef
  set base1 := List.replicate a.toNat StimulusType.target ++
      List.replicate ((h : ℤ) - a).toNat StimulusType.nonTarget with hbase1
  set base2 := List.replicate b.toNat StimulusType.target ++
      List.replicate ((h : ℤ) - b).toNat StimulusType.nonTarget with hbase2
  have hperm1 : List.Perm (shuffleArray rand1 base1) base1 := shuffleArray_perm _ _
  have hperm2 : List.Perm (shuffleArray rand2 base2) base2 := shuffleArray_perm _ _
  have hlen1 : (shuffleArray rand1 base1).length = h := by
    rw [hperm1.length_eq]
    exact length_half a h ha0 hah
  have hlen2 : (shuffleArray rand2 base2).length = h := by
    rw [hperm2.length_eq]
    exact length_half b h hb0 hbh
  refine ⟨_, generateTrialSequence_even_eq rand1 rand2 h, ?_, ?_, ?_, ?_, ?_, ?_, ?_, ?_⟩
  · rw [List.length_append, hlen1, hlen2]; ring
  · rw [take_append_exact _ _ h hlen1]
    rw [hperm1.count_eq]
    exact count_target_half a h
  · rw [drop_append_exact _ _ h hlen1]
    rw [hperm2.count_eq]
    exact count_target_half b h
  · rw [take_append_exact _ _ h hlen1]
    rw [hperm1.count_eq]
    exact count_nonTarget_half a h ha0 hah
  · rw [drop_append_exact _ _ h hlen1]
    rw [hperm2.count_eq]
    exact count_nonTarget_half b h hb0 hbh
  · rw [take_append_exact _ _ h hlen1]
    have hcnt : ((h : ℤ) - a).toNat = h - a.toNat := by omega
    refine hperm1.trans ?_
    rw [hbase1, hcnt]
  · rw [drop_append_exact _ _ h hlen1]
    have hcnt : ((h : ℤ) - b).toNat = h - b.toNat := by omega
    refine hperm2.trans ?_
    rw [hbase2, hcnt]
  · have hcnt1 : ((h : ℤ) - a).toNat = h - a.toNat := by omega
    have hcnt2 : ((h : ℤ) - b).toNat = h - b.toNat := by omega
    refine List.Perm.append (hperm1.trans ?_) (hperm2.trans ?_)
    · rw [hbase1, hcnt1]
    · rw [hbase2, hcnt2]

/-- Witness for C3 at `n = 8` with the constant random source. -/
theorem C3_generateTrialSequence_counts_witness :
    ∃ l : List StimulusType,
      generateTrialSequence (fun _ => 0) (fun _ => 0) 8 = Except.ok l ∧
      l.length = 8 ∧
      (l.take (8 / 2)).count StimulusType.target = (jsRound ((8 : ℚ) / 2 * 0.225)).toNat ∧
      (l.drop (8 / 2)).count StimulusType.target = (jsRound ((8 : ℚ) / 2 * 0.775)).toNat ∧
      (l.take (8 / 2)).count StimulusType.nonTarget
        = 8 / 2 - (jsRound ((8 : ℚ) / 2 * 0.225)).toNat ∧
      (l.drop (8 / 2)).count StimulusType.nonTarget
        = 8 / 2 - (jsRound ((8 : ℚ) / 2 * 0.775)).toNat ∧
      List.Perm (l.take (8 / 2))
        (List.replicate ((jsRound ((8 : ℚ) / 2 * 0.225)).toNat) StimulusType.target ++
          List.replicate (8 / 2 - (jsRound ((8 : ℚ) / 2 * 0.225)).toNat) StimulusType.nonTarget) ∧
      List.Perm (l.drop (8 / 2))
        (List.replicate ((jsRound ((8 : ℚ) / 2 * 0.775)).toNat) StimulusType.target ++
          List.replicate (8 / 2 - (jsRound ((8 : ℚ) / 2 * 0.775)).toNat) StimulusType.nonTarget) ∧
      List.Perm l
        ((List.replicate ((jsRound ((8 : ℚ) / 2 * 0.225)).toNat) StimulusType.target ++
            List.replicate (8 / 2 - (jsRound ((8 : ℚ) / 2 * 0.225)).toNat)
              StimulusType.nonTarget) ++
          (List.replicate ((jsRound ((8 : ℚ) / 2 * 0.775)).toNat) StimulusType.target ++
            List.replicate (8 / 2 - (jsRound ((8 : ℚ) / 2 * 0.775)).toNat)
              StimulusType.nonTarget)) :=
  C3_generateTrialSequence_counts (fun _ => 0) (fun _ => 0) 8 (by decide) (by norm_num)

/-- C6 (amended): the generator performs no validation of `totalTrials`.
For every odd `totalTrials` it fails with a JavaScript `RangeError` raised
by constructing a fractional-length array — not with a `ConfigError`, which
does not exist in the code — and for `totalTrials = 0` (even but `< 2`) it
returns the empty sequence instead of failing. -/
theorem C6_generateTrialSequence_odd_fails (rand1 rand2 : ℕ → ℕ) (n : ℕ)
    (hodd : Odd n) :
    generateTrialSequence rand1 rand2 n = Except.error JsError.rangeError :=
  generateTrialSequence_odd_eq rand1 rand2 n hodd

/-- Witness for C6 (amended) at `totalTrials = 3`. -/
theorem C6_generateTrialSequence_odd_fails_witness :
    generateTrialSequence (fun _ => 0) (fun _ => 0) 3 = Except.error JsError.rangeError :=
  C6_generateTrialSequence_odd_fails (fun _ => 0) (fun _ => 0) 3 (by decide)

/-- Counterexample for C6 as stated: `totalTrials = 0` is even and `< 2`,
yet `generate(0)` does not fail at all — it returns the empty sequence. -/
theorem C6_generateTrialSequence_zero_counterexample :
    generateTrialSequence (fun _ => 0) (fun _ => 0) 0 = Except.ok [] := by
  have h := generateTrialSequence_even_eq (fun _ => 0) (fun _ => 0) 0
  norm_num [jsRound] at h
  simpa [shuffleArray] using h

/-! ### Finite values of the inverse CDF -/

lemma ClinicalMetrics.tovaInverseNormalCDF_coe (p : ℝ) (h0 : 0 < p) (h1 : p < 1) :
    ClinicalMetrics.tovaInverseNormalCDF p = ((ClinicalMetrics.invNormCore p : ℝ) : EReal) := by
  unfold ClinicalMetrics.tovaInverseNormalCDF ClinicalMetrics.invNormCore
  rw [if_neg (not_le.mpr h0), if_neg (not_le.mpr h1)]
  by_cases hp : p = 0.5
  · rw [if_pos hp, if_pos hp]
  · rw [if_neg hp, if_neg hp]

lemma Distributions.inverseNormalCDF_eq_tova (p : ℝ) :
    Distributions.inverseNormalCDF p = ClinicalMetrics.tovaInverseNormalCDF p := rfl

lemma ClinicalMetrics.boundaryAdjust_pos (p : ℝ) :
    0 < ClinicalMetrics.boundaryAdjust p := by
  unfold ClinicalMetrics.boundaryAdjust
  split_ifs with h1 h2
  · norm_num
  · norm_num
  · push_neg at h1
    exact h1

lemma ClinicalMetrics.boundaryAdjust_lt_one (p : ℝ) :
    ClinicalMetrics.boundaryAdjust p < 1 := by
  unfold ClinicalMetrics.boundaryAdjust
  split_ifs with h1 h2
  · norm_num
  · norm_num
  · push_neg at h2
    exact h2

lemma ClinicalMetrics.calculateDPrime_coe (hitRate falseAlarmRate : ℝ) :
    ClinicalMetrics.calculateDPrime hitRate falseAlarmRate =
      ((ClinicalMetrics.calculateDPrimeReal hitRate falseAlarmRate : ℝ) : EReal) := by
  simp only [ClinicalMetrics.calculateDPrime, ClinicalMetrics.calculateDPrimeReal]
  rw [ClinicalMetrics.tovaInverseNormalCDF_coe _ (ClinicalMetrics.boundaryAdjust_pos _)
      (ClinicalMetrics.boundaryAdjust_lt_one _),
    ClinicalMetrics.tovaInverseNormalCDF_coe _ (ClinicalMetrics.boundaryAdjust_pos _)
      (ClinicalMetrics.boundaryAdjust_lt_one _),
    ← EReal.coe_sub]

lemma ClinicalMetrics.invNormCore_gt_half (p : ℝ) (h05 : 0.5 < p) :
    ClinicalMetrics.invNormCore p = -ClinicalMetrics.invNormCore (1 - p) := by
  unfold ClinicalMetrics.invNormCore
  have hne : p ≠ 0.5 := ne_of_gt h05
  have hlt : ¬ (0.5 : ℝ) < 1 - p := by linarith
  have hne2 : (1 - p) ≠ 0.5 := by
    intro h
    exact hne (by linarith)
  rw [if_neg hne, if_neg hne2]
  simp only [if_pos h05, if_neg hlt]

/-! ### Numeric bounds for the perfect-performance D-prime -/

lemma log_ten_gt : (2.3025779 : ℝ) < Real.log 10 := by
  have h : 485 * Real.log 2 < 146 * Real.log 10 := by
    have h2 := Real.log_lt_log (by positivity) (show (2 : ℝ) ^ (485 : ℕ) < 10 ^ (146 : ℕ) by norm_num)
    rwa [Real.log_pow, Real.log_pow] at h2
  nlinarith [Real.log_two_gt_d9]

lemma log_ten_lt : Real.log 10 < (2.3026585 : ℝ) := by
  have h : 59 * Real.log 10 < 196 * Real.log 2 := by
    have h2 := Real.log_lt_log (by positivity) (show (10 : ℝ) ^ (59 : ℕ) < 2 ^ (196 : ℕ) by norm_num)
    rwa [Real.log_pow, Real.log_pow] at h2
  nlinarith [Real.log_two_lt_d9]

lemma neg_two_log_1e5 : -2 * Real.log (0.00001 : ℝ) = 10 * Real.log 10 := by
  have h1 : (0.00001 : ℝ) = ((100000 : ℝ))⁻¹ := by norm_num
  have h2 : (100000 : ℝ) = 10 ^ (5 : ℕ) := by norm_num
  rw [h1, Real.log_inv, h2, Real.log_pow]
  push_cast
  ring

set_option maxHeartbeats 1000000 in
lemma ClinicalMetrics.invNormCore_1e5_bounds :
    (4.264829 : ℝ) ≤ ClinicalMetrics.invNormCore 0.00001 ∧
      ClinicalMetrics.invNormCore 0.00001 ≤ (4.264934 : ℝ) := by
  unfold ClinicalMetrics.invNormCore
  rw [if_neg (by norm_num : (0.00001 : ℝ) ≠ 0.5)]
  simp only [if_neg (by norm_num : ¬ (0.5 : ℝ) < 0.00001)]
  rw [neg_two_log_1e5]
  set T := Real.sqrt (10 * Real.log 10) with hTdef
  have hlog_lo := log_ten_gt
  have hlog_hi := log_ten_lt
  have hT0 : 0 ≤ T := Real.sqrt_nonneg _
  have hTsq : T ^ 2 = 10 * Real.log 10 := Real.sq_sqrt (by linarith)
  have hTT : T * T = 10 * Real.log 10 := by
    rw [← hTsq]; ring
  have hTT_lo : (23.025779 : ℝ) ≤ T * T := by rw [hTT]; linarith
  have hTT_hi : T * T ≤ (23.026585 : ℝ) := by rw [hTT]; linarith
  have hT1 : (4.798518 : ℝ) ≤ T := by
    rw [hTdef, Real.le_sqrt (by norm_num) (by linarith)]
    have h : (4.798518 : ℝ) ^ 2 = 23.025774996324 := by norm_num
    rw [h]
    linarith
  have hT2 : T ≤ (4.798603 : ℝ) := by
    rw [hTdef, Real.sqrt_le_left (by norm_num)]
    have h : (4.798603 : ℝ) ^ 2 = 23.026590751609 := by norm_num
    rw [h]
    linarith
  have hT3_lo : (110.489595 : ℝ) ≤ T * T * T := by
    have h := mul_le_mul hTT_lo hT1 (by norm_num) (le_trans (by norm_num) hTT_lo)
    have h2 : (110.489595 : ℝ) ≤ (23.025779 : ℝ) * 4.798518 := by norm_num
    linarith
  have hT3_hi : T * T * T ≤ (110.495468 : ℝ) := by
    have h := mul_le_mul hTT_hi hT2 hT0 (by norm_num)
    have h2 : (23.026585 : ℝ) * 4.798603 ≤ 110.495468 := by norm_num
    linarith
  have hden_pos : (0 : ℝ) < 1 + 1.432788 * T + 0.189269 * T * T + 0.001308 * T * T * T := by
    linarith
  have hden_lo : (12.37784 : ℝ) ≤ 1 + 1.432788 * T + 0.189269 * T * T + 0.001308 * T * T * T := by
    linarith
  have hden_hi : 1 + 1.432788 * T + 0.189269 * T * T + 0.001308 * T * T * T ≤ (12.37813 : ℝ) := by
    linarith
  have hnum_lo : (6.605831 : ℝ) ≤ 2.515517 + 0.802853 * T + 0.010328 * T * T := by
    linarith
  have hnum_hi : 2.515517 + 0.802853 * T + 0.010328 * T * T ≤ (6.605909 : ℝ) := by
    linarith
  have hq_lo : (0.533669 : ℝ) ≤
      (2.515517 + 0.802853 * T + 0.010328 * T * T) /
        (1 + 1.432788 * T + 0.189269 * T * T + 0.001308 * T * T * T) := by
    rw [le_div_iff₀ hden_pos]
    linarith
  have hq_hi : (2.515517 + 0.802853 * T + 0.010328 * T * T) /
        (1 + 1.432788 * T + 0.189269 * T * T + 0.001308 * T * T * T) ≤ (0.533689 : ℝ) := by
    rw [div_le_iff₀ hden_pos]
    linarith
  constructor
  · linarith
  · linarith

/-- C4: after the boundary adjustment, the D-prime computation of
clinical-metrics.ts applied to `hitRate = 1.0` and `falseAlarmRate = 0.0`
returns a (finite) value within 0.01 of 8.52. -/
theorem C4_calculateDPrime_perfect :
    ∃ x : ℝ, ClinicalMetrics.calculateDPrime 1 0 = ((x : ℝ) : EReal) ∧ |x - 8.52| < 0.01 := by
  refine ⟨ClinicalMetrics.calculateDPrimeReal 1 0, ClinicalMetrics.calculateDPrime_coe 1 0, ?_⟩
  have hba1 : ClinicalMetrics.boundaryAdjust 1 = 0.99999 := by
    unfold ClinicalMetrics.boundaryAdjust
    rw [if_neg (by norm_num), if_pos le_rfl]
  have hba0 : ClinicalMetrics.boundaryAdjust 0 = 0.00001 := by
    unfold ClinicalMetrics.boundaryAdjust
    rw [if_pos le_rfl]
  have hsym : ClinicalMetrics.invNormCore 0.99999 = -ClinicalMetrics.invNormCore 0.00001 := by
    have h := ClinicalMetrics.invNormCore_gt_half 0.99999 (by norm_num)
    rw [show (1 : ℝ) - 0.99999 = 0.00001 by norm_num] at h
    exact h
  unfold ClinicalMetrics.calculateDPrimeReal
  rw [hba1, hba0, hsym]
  have hb := ClinicalMetrics.invNormCore_1e5_bounds
  rw [abs_lt]
  constructor
  · linarith [hb.1]
  · linarith [hb.2]

/-- C7: `invNormCDF(0.5) = 0`, and for every `p` with `0.5 < p < 1`,
`invNormCDF(p)` is the negation of `invNormCDF(1 - p)`. -/
theorem C7_inverseNormalCDF_antisymmetry :
    Distributions.inverseNormalCDF (0.5 : ℝ) = ((0 : ℝ) : EReal) ∧
      ∀ p : ℝ, 0.5 < p → p < 1 →
        Distributions.inverseNormalCDF p = -Distributions.inverseNormalCDF (1 - p) := by
  constructor
  · unfold Distributions.inverseNormalCDF
    rw [if_neg (by norm_num), if_neg (by norm_num), if_pos rfl]
  · intro p h05 h1
    rw [Distributions.inverseNormalCDF_eq_tova, Distributions.inverseNormalCDF_eq_tova]
    rw [ClinicalMetrics.tovaInverseNormalCDF_coe p (by linarith) h1,
      ClinicalMetrics.tovaInverseNormalCDF_coe (1 - p) (by linarith) (by linarith)]
    rw [← EReal.coe_neg, EReal.coe_eq_coe_iff]
    exact ClinicalMetrics.invNormCore_gt_half p h05

/-- Witness for C7 at `p = 3/4`. -/
theorem C7_inverseNormalCDF_antisymmetry_witness :
    Distributions.inverseNormalCDF ((3 : ℝ) / 4) =
      -Distributions.inverseNormalCDF (1 - (3 : ℝ) / 4) :=
  C7_inverseNormalCDF_antisymmetry.2 ((3 : ℝ) / 4) (by norm_num) (by norm_num)

/-- C10: on inputs that are `≤ 0`, `≥ 1`, or already inside
`[1e-5, 1 - 1e-5]`, the boundary-adjusting `calculateDPrime` of
clinical-metrics.ts and the `clampProbability`-based `calculateDPrime` of the
distributions module return equal results. -/
theorem C10_calculateDPrime_agree (hitRate falseAlarmRate : ℝ)
    (hh : hitRate ≤ 0 ∨ (0.00001 ≤ hitRate ∧ hitRate ≤ 0.99999) ∨ 1 ≤ hitRate)
    (hf : falseAlarmRate ≤ 0 ∨
      (0.00001 ≤ falseAlarmRate ∧ falseAlarmRate ≤ 0.99999) ∨ 1 ≤ falseAlarmRate) :
    ClinicalMetrics.calculateDPrime hitRate falseAlarmRate =
      Distributions.calculateDPrime hitRate falseAlarmRate := by
  have key : ∀ p : ℝ, p ≤ 0 ∨ (0.00001 ≤ p ∧ p ≤ 0.99999) ∨ 1 ≤ p →
      ClinicalMetrics.boundaryAdjust p = Distributions.clampProbability p := by
    intro p hp
    unfold ClinicalMetrics.boundaryAdjust Distributions.clampProbability
    rcases hp with hp | ⟨hp1, hp2⟩ | hp
    · rw [if_pos hp, min_eq_right (by linarith), max_eq_left (by linarith)]
    · rw [if_neg (by linarith), if_neg (by linarith), min_eq_right hp2, max_eq_right hp1]
    · rw [if_neg (by linarith), if_pos hp, min_eq_left (by linarith),
        max_eq_right (by norm_num)]
  simp only [ClinicalMetrics.calculateDPrime, Distributions.calculateDPrime]
  rw [key hitRate hh, key falseAlarmRate hf]
  rw [Distributions.inverseNormalCDF_eq_tova, Distributions.inverseNormalCDF_eq_tova]

/-- Witness for C10 at `(hitRate, falseAlarmRate) = (1, 0)`. -/
theorem C10_calculateDPrime_agree_witness :
    ClinicalMetrics.calculateDPrime 1 0 = Distributions.calculateDPrime 1 0 :=
  C10_calculateDPrime_agree 1 0 (Or.inr (Or.inr le_rfl)) (Or.inl le_rfl)

/-- Counterexample for C5 as stated: the rate `1e-6` lies strictly between
`0` and `1e-5`, but the boundary adjustment used by the scoring pipeline
D-prime computation passes it through unchanged — below the claimed clamp
floor — instead of raising it to `1e-5`. -/
theorem C5_boundaryAdjust_counterexample :
    ClinicalMetrics.boundaryAdjust 0.000001 = 0.000001 ∧ (0.000001 : ℝ) < 0.00001 := by
  constructor
  · unfold ClinicalMetrics.boundaryAdjust
    rw [if_neg (by norm_num), if_neg (by norm_num)]
  · norm_num

/-- C5 (amended): the clinical-metrics D-prime computation adjusts only
rates `≤ 0` (to `1e-5`) and `≥ 1` (to `1 - 1e-5`); rates strictly inside
`(0, 1)` are passed to the inverse CDF unchanged.  Hence the values passed
lie in `[1e-5, 1 - 1e-5]` exactly when the input rate is outside
`(0, 1e-5) ∪ (1 - 1e-5, 1)`; the `clampProbability` used by the
distributions module clamps into that interval unconditionally. -/
theorem C5_clamping_amended (p : ℝ)
    (hp : p ≤ 0 ∨ (0.00001 ≤ p ∧ p ≤ 0.99999) ∨ 1 ≤ p) :
    (0.00001 ≤ ClinicalMetrics.boundaryAdjust p ∧
        ClinicalMetrics.boundaryAdjust p ≤ 0.99999) ∧
      (0.00001 ≤ Distributions.clampProbability p ∧
        Distributions.clampProbability p ≤ 0.99999) := by
  constructor
  · unfold ClinicalMetrics.boundaryAdjust
    rcases hp with hp | ⟨hp1, hp2⟩ | hp
    · rw [if_pos hp]
      norm_num
    · rw [if_neg (by linarith), if_neg (by linarith)]
      exact ⟨hp1, hp2⟩
    · rw [if_neg (by linarith), if_pos hp]
      norm_num
  · unfold Distributions.clampProbability
    exact ⟨le_max_left _ _, max_le (by norm_num) (min_le_left _ _)⟩

/-- Witness for C5 (amended) at `p = 1`. -/
theorem C5_clamping_amended_witness :
    (0.00001 ≤ ClinicalMetrics.boundaryAdjust 1 ∧
        ClinicalMetrics.boundaryAdjust 1 ≤ 0.99999) ∧
      (0.00001 ≤ Distributions.clampProbability 1 ∧
        Distributions.clampProbability 1 ≤ 0.99999) :=
  C5_clamping_amended 1 (Or.inr (Or.inr le_rfl))

/-! ### The ACS pipeline claims -/

lemma acsInterpretation_ne_unavailable
    (processTestEvents : List TestEvent → TestConfig → List TrialResult)
    (getNormativeStats : ℝ → Gender → Option NormativeStats)
    (TRIAL_CONSTANTS : TrialConstants)
    (events : List TestEvent) (subjectInfo : SubjectInfo) :
    (calculateAttentionMetrics processTestEvents getNormativeStats TRIAL_CONSTANTS events
        subjectInfo).acsInterpretation ≠ AcsInterpretation.unavailable := by
  simp only [calculateAttentionMetrics]
  split_ifs <;> simp

/-- C9: in the scoring pipeline, `hitRate` and `falseAlarmRate` fed to the
D-prime computation are computed from second-half trials only, as
`hits / (hits + omissions)` and `commissions / (commissions +
correctRejections)`, and each rate is exactly 0.5 when its denominator is
zero. -/
theorem C9_rates_from_second_half
    (processTestEvents : List TestEvent → TestConfig → List TrialResult)
    (getNormativeStats : ℝ → Gender → Option NormativeStats)
    (TRIAL_CONSTANTS : TrialConstants)
    (events : List TestEvent) (subjectInfo : SubjectInfo) :
    (computeAcsValues processTestEvents getNormativeStats TRIAL_CONSTANTS events
        subjectInfo).dPrime =
      (let trials := processTestEvents events
        { totalTrials :=
            (events.filter (fun e => e.eventType == TestEventType.stimulusOnset)).length }
      let secondHalfTrials := trials.drop (trials.length / 2)
      let hits := (secondHalfTrials.filter (fun t => t.outcome == TrialOutcome.hit)).length
      let omissions :=
        (secondHalfTrials.filter (fun t => t.outcome == TrialOutcome.omission)).length
      let commissions :=
        (secondHalfTrials.filter (fun t => t.outcome == TrialOutcome.commission)).length
      let correctRejections :=
        (secondHalfTrials.filter (fun t => t.outcome == TrialOutcome.correctRejection)).length
      ClinicalMetrics.calculateDPrimeReal
        (if 0 < hits + omissions then (hits : ℝ) / ((hits + omissions : ℕ) : ℝ) else 0.5)
        (if 0 < commissions + correctRejections then
          (commissions : ℝ) / ((commissions + correctRejections : ℕ) : ℝ)
        else 0.5)) := rfl

/-- C1 (amended): the composite score is never null.  It always equals
`rtZ + dPrimeZ + variabilityZ + ACS_CONSTANT`; when the normative lookup
returns no row, all three z-scores default to 0 — so the composite equals
the fixed constant (1.80 per the spec) rather than being null — and the
interpretation is never `unavailable`. -/
theorem C1_composite_never_null
    (processTestEvents : List TestEvent → TestConfig → List TrialResult)
    (getNormativeStats : ℝ → Gender → Option NormativeStats)
    (TRIAL_CONSTANTS : TrialConstants)
    (events : List TestEvent) (subjectInfo : SubjectInfo)
    (hnone : getNormativeStats subjectInfo.age subjectInfo.gender = none) :
    (computeAcsValues processTestEvents getNormativeStats TRIAL_CONSTANTS events
        subjectInfo).acs =
      (computeAcsValues processTestEvents getNormativeStats TRIAL_CONSTANTS events
          subjectInfo).rtZ +
        (computeAcsValues processTestEvents getNormativeStats TRIAL_CONSTANTS events
            subjectInfo).dPrimeZ +
        (computeAcsValues processTestEvents getNormativeStats TRIAL_CONSTANTS events
            subjectInfo).variabilityZ +
        TRIAL_CONSTANTS.ACS_CONSTANT ∧
      (computeAcsValues processTestEvents getNormativeStats TRIAL_CONSTANTS events
          subjectInfo).rtZ = 0 ∧
      (computeAcsValues processTestEvents getNormativeStats TRIAL_CONSTANTS events
          subjectInfo).dPrimeZ = 0 ∧
      (computeAcsValues processTestEvents getNormativeStats TRIAL_CONSTANTS events
          subjectInfo).variabilityZ = 0 ∧
      (computeAcsValues processTestEvents getNormativeStats TRIAL_CONSTANTS events
          subjectInfo).acs = TRIAL_CONSTANTS.ACS_CONSTANT ∧
      (calculateAttentionMetrics processTestEvents getNormativeStats TRIAL_CONSTANTS events
          subjectInfo).acsInterpretation ≠ AcsInterpretation.unavailable := by
  refine ⟨rfl, ?_, ?_, ?_, ?_, acsInterpretation_ne_unavailable _ _ _ _ _⟩
  · simp only [computeAcsValues, hnone]
  · simp only [computeAcsValues, hnone]
  · simp only [computeAcsValues, hnone]
  · simp only [computeAcsValues, hnone]
    norm_num

/-- Witness for C1 (amended) with an empty event log, the empty trial
reconstruction, an absent normative row, and the spec constant. -/
theorem C1_composite_never_null_witness :
    (computeAcsValues (fun _ _ => []) (fun _ _ => none)
        ⟨specAcsConstant, 0, 0⟩ [] ⟨32, Gender.male⟩).acs =
      (computeAcsValues (fun _ _ => []) (fun _ _ => none)
          ⟨specAcsConstant, 0, 0⟩ [] ⟨32, Gender.male⟩).rtZ +
        (computeAcsValues (fun _ _ => []) (fun _ _ => none)
            ⟨specAcsConstant, 0, 0⟩ [] ⟨32, Gender.male⟩).dPrimeZ +
        (computeAcsValues (fun _ _ => []) (fun _ _ => none)
            ⟨specAcsConstant, 0, 0⟩ [] ⟨32, Gender.male⟩).variabilityZ +
        TrialConstants.ACS_CONSTANT ⟨specAcsConstant, 0, 0⟩ ∧
      (computeAcsValues (fun _ _ => []) (fun _ _ => none)
          ⟨specAcsConstant, 0, 0⟩ [] ⟨32, Gender.male⟩).rtZ = 0 ∧
      (computeAcsValues (fun _ _ => []) (fun _ _ => none)
          ⟨specAcsConstant, 0, 0⟩ [] ⟨32, Gender.male⟩).dPrimeZ = 0 ∧
      (computeAcsValues (fun _ _ => []) (fun _ _ => none)
          ⟨specAcsConstant, 0, 0⟩ [] ⟨32, Gender.male⟩).variabilityZ = 0 ∧
      (computeAcsValues (fun _ _ => []) (fun _ _ => none)
          ⟨specAcsConstant, 0, 0⟩ [] ⟨32, Gender.male⟩).acs =
        TrialConstants.ACS_CONSTANT ⟨specAcsConstant, 0, 0⟩ ∧
      (calculateAttentionMetrics (fun _ _ => []) (fun _ _ => none)
          ⟨specAcsConstant, 0, 0⟩ [] ⟨32, Gender.male⟩).acsInterpretation ≠
        AcsInterpretation.unavailable :=
  C1_composite_never_null (fun _ _ => []) (fun _ _ => none)
    ⟨specAcsConstant, 0, 0⟩ [] ⟨32, Gender.male⟩ rfl

/-- Counterexample for C1 as stated: with no normative row for the subject,
the composite is not null — it is the number 1.80 — and the interpretation
is not `unavailable`. -/
theorem C1_composite_null_counterexample :
    (computeAcsValues (fun _ _ => []) (fun _ _ => none)
        ⟨specAcsConstant, 0, 0⟩ [] ⟨32, Gender.male⟩).acs = 1.80 ∧
      (calculateAttentionMetrics (fun _ _ => []) (fun _ _ => none)
          ⟨specAcsConstant, 0, 0⟩ [] ⟨32, Gender.male⟩).acsInterpretation ≠
        AcsInterpretation.unavailable := by
  constructor
  · simp only [computeAcsValues, specAcsConstant]
    norm_num
  · exact acsInterpretation_ne_unavailable _ _ _ _ _

/-- C2 (amended): whenever the normative lookup returns a row, each of the
three z-scores is computed unconditionally as `(value - mean) / sd`, with
no check that the normative standard deviation is finite and positive. -/
theorem C2_zscores_unconditional
    (processTestEvents : List TestEvent → TestConfig → List TrialResult)
    (getNormativeStats : ℝ → Gender → Option NormativeStats)
    (TRIAL_CONSTANTS : TrialConstants)
    (events : List TestEvent) (subjectInfo : SubjectInfo) (ns : NormativeStats)
    (hsome : getNormativeStats subjectInfo.age subjectInfo.gender = some ns) :
    (computeAcsValues processTestEvents getNormativeStats TRIAL_CONSTANTS events
        subjectInfo).rtZ =
      ((computeAcsValues processTestEvents getNormativeStats TRIAL_CONSTANTS events
          subjectInfo).firstHalfMeanRT - ns.responseTimeMean) / ns.responseTimeSD ∧
      (computeAcsValues processTestEvents getNormativeStats TRIAL_CONSTANTS events
          subjectInfo).dPrimeZ =
        ((computeAcsValues processTestEvents getNormativeStats TRIAL_CONSTANTS events
            subjectInfo).dPrime - ns.dPrimeMean) / ns.dPrimeSD ∧
      (computeAcsValues processTestEvents getNormativeStats TRIAL_CONSTANTS events
          subjectInfo).variabilityZ =
        ((computeAcsValues processTestEvents getNormativeStats TRIAL_CONSTANTS events
            subjectInfo).variability - ns.variabilityMean) / ns.variabilitySD := by
  refine ⟨?_, ?_, ?_⟩ <;> simp only [computeAcsValues, hsome]

/-- Witness for C2 (amended) with a concrete normative row. -/
theorem C2_zscores_unconditional_witness :
    (computeAcsValues (fun _ _ => []) (fun _ _ => some ⟨0, 1, 0, 1, 0, 1⟩)
        ⟨specAcsConstant, 0, 0⟩ [] ⟨32, Gender.male⟩).rtZ =
      ((computeAcsValues (fun _ _ => []) (fun _ _ => some ⟨0, 1, 0, 1, 0, 1⟩)
          ⟨specAcsConstant, 0, 0⟩ [] ⟨32, Gender.male⟩).firstHalfMeanRT -
        NormativeStats.responseTimeMean ⟨0, 1, 0, 1, 0, 1⟩) /
        NormativeStats.responseTimeSD ⟨0, 1, 0, 1, 0, 1⟩ ∧
      (computeAcsValues (fun _ _ => []) (fun _ _ => some ⟨0, 1, 0, 1, 0, 1⟩)
          ⟨specAcsConstant, 0, 0⟩ [] ⟨32, Gender.male⟩).dPrimeZ =
        ((computeAcsValues (fun _ _ => []) (fun _ _ => some ⟨0, 1, 0, 1, 0, 1⟩)
            ⟨specAcsConstant, 0, 0⟩ [] ⟨32, Gender.male⟩).dPrime -
          NormativeStats.dPrimeMean ⟨0, 1, 0, 1, 0, 1⟩) /
          NormativeStats.dPrimeSD ⟨0, 1, 0, 1, 0, 1⟩ ∧
      (computeAcsValues (fun _ _ => []) (fun _ _ => some ⟨0, 1, 0, 1, 0, 1⟩)
          ⟨specAcsConstant, 0, 0⟩ [] ⟨32, Gender.male⟩).variabilityZ =
        ((computeAcsValues (fun _ _ => []) (fun _ _ => some ⟨0, 1, 0, 1, 0, 1⟩)
            ⟨specAcsConstant, 0, 0⟩ [] ⟨32, Gender.male⟩).variability -
          NormativeStats.variabilityMean ⟨0, 1, 0, 1, 0, 1⟩) /
          NormativeStats.variabilitySD ⟨0, 1, 0, 1, 0, 1⟩ :=
  C2_zscores_unconditional (fun _ _ => []) (fun _ _ => some ⟨0, 1, 0, 1, 0, 1⟩)
    ⟨specAcsConstant, 0, 0⟩ [] ⟨32, Gender.male⟩ ⟨0, 1, 0, 1, 0, 1⟩ rfl

/-- Counterexample for C2 as stated: with a normative row whose response
time SD is `-1 ≤ 0`, the pipeline still computes the numeric z-score
`(0 - 1) / (-1) = 1` instead of the null that the spec-modelled guarded
z-score (`zScoreChecked`) produces. -/
theorem C2_zscore_guard_counterexample :
    (computeAcsValues (fun _ _ => []) (fun _ _ => some ⟨1, -1, 0, 1, 0, 1⟩)
        ⟨specAcsConstant, 0, 0⟩ [] ⟨32, Gender.male⟩).rtZ = 1 ∧
      zScoreChecked
        (computeAcsValues (fun _ _ => []) (fun _ _ => some ⟨1, -1, 0, 1, 0, 1⟩)
            ⟨specAcsConstant, 0, 0⟩ [] ⟨32, Gender.male⟩).firstHalfMeanRT 1 (-1) = none := by
  constructor
  · simp only [computeAcsValues]
    norm_num
  · unfold zScoreChecked
    rw [if_neg (by norm_num)]

/-! ### Variability on the reference response-time list -/

lemma calculateSD_c8_bounds :
    (102.1 : ℝ) ≤ calculateSD [424.28, 422.32, 594.92, 616.85, 413.52] ∧
      calculateSD [424.28, 422.32, 594.92, 616.85, 413.52] ≤ (102.2 : ℝ) := by
  unfold calculateSD
  rw [if_neg (by norm_num)]
  simp only [List.map_cons, List.map_nil, List.sum_cons, List.sum_nil, List.length_cons,
    List.length_nil]
  constructor
  · rw [Real.le_sqrt (by norm_num) (by norm_num)]
    norm_num
  · rw [Real.sqrt_le_left (by norm_num)]
    norm_num

lemma manualCalculateVariability_c8_bounds :
    (91.3 : ℝ) ≤ manualCalculateVariability [424.28, 422.32, 594.92, 616.85, 413.52] ∧
      manualCalculateVariability [424.28, 422.32, 594.92, 616.85, 413.52] ≤ (91.4 : ℝ) := by
  unfold manualCalculateVariability
  rw [if_neg (by norm_num)]
  simp only [List.map_cons, List.map_nil, List.sum_cons, List.sum_nil, List.length_cons,
    List.length_nil]
  constructor
  · rw [Real.le_sqrt (by norm_num) (by norm_num)]
    norm_num
  · rw [Real.sqrt_le_left (by norm_num)]
    norm_num

/-- Counterexample for C8 as stated: on the reference list the sample
standard deviation computed by `calculateSD` (divisor `n - 1`) is about
102.17, which is not within 0.1 of 91.39. -/
theorem C8_sampleSD_counterexample :
    ¬ |calculateSD [424.28, 422.32, 594.92, 616.85, 413.52] - 91.39| < 0.1 := by
  intro hcon
  rw [abs_lt] at hcon
  have h := calculateSD_c8_bounds
  linarith [h.1, hcon.2]

/-- C8 (amended): the 91.39 figure is the population standard deviation
(divisor `n`) of the reference list, as computed by the repository test
helper `manualCalculateVariability`; the sample standard deviation computed
by `calculateSD` (divisor `n - 1`, 0 when fewer than two samples) is within
0.1 of 102.17 instead. -/
theorem C8_variability_reference_values :
    |manualCalculateVariability [424.28, 422.32, 594.92, 616.85, 413.52] - 91.39| < 0.1 ∧
      |calculateSD [424.28, 422.32, 594.92, 616.85, 413.52] - 102.17| < 0.1 := by
  have h1 := manualCalculateVariability_c8_bounds
  have h2 := calculateSD_c8_bounds
  constructor
  · rw [abs_lt]
    constructor
    · linarith [h1.1]
    · linarith [h1.2]
  · rw [abs_lt]
    constructor
    · linarith [h2.1]
    · linarith [h2.2]
